import Mathlib

/-!
Shallow embedding of the CRUD mutation/query pipeline of this repository
(`apiens/crud/crudbase.py` and `apiens/crud/query/query_api.py`).

Entities are persisted rows whose attributes are finite maps from field
names to values; the SqlAlchemy session is modelled as the list of rows it
tracks, each row carrying both its flushed (committed) attribute values and
its current in-memory values, plus a serial counter for generated identity
values.  Operations additionally return the list of hook/session events
they performed, in order, so that ordering claims can be stated.

Definitions whose Python source is not part of the checked tree
(`CrudParams`, `CrudSettings`, `get_history_proxy_for_instance`) carry a
doc comment starting with `Modelled from the spec:`.
-/

/-- Attribute value stored in an entity field: SQL integers, strings,
booleans, and NULL. -/
inductive AttrValue where
  | int (n : Int)
  | str (s : String)
  | bool (b : Bool)
  | null
deriving DecidableEq

/-- Attribute assignment of an entity (and also an input dictionary):
an association list from field name to value. -/
abbrev Attrs := List (String × AttrValue)

/-- Read one attribute; `none` means the field was never assigned. -/
def lookupAttr (k : String) : Attrs → Option AttrValue
  | [] => none
  | (k2, v) :: rest => if k2 = k then some v else lookupAttr k rest

/-- Python `setattr(instance, k, v)`: overwrite the first binding of `k`,
or append a new binding when the attribute was never assigned. -/
def setAttr (a : Attrs) (k : String) (v : AttrValue) : Attrs :=
  match a with
  | [] => [(k, v)]
  | (k2, v2) :: rest => if k2 = k then (k, v) :: rest else (k2, v2) :: setAttr rest k v

/-- Apply every field of an input dictionary onto an attribute map, in
order, through `setAttr` (the `setattr` loop of
`_update_instance_from_input_dict`). -/
def applyInputDict (a : Attrs) (d : Attrs) : Attrs :=
  d.foldl (fun acc kv => setAttr acc kv.1 kv.2) a

/-- Field names of an input dictionary. -/
def keysOf (d : Attrs) : List String := d.map Prod.fst

/-- True when no field name occurs twice (every Python dict satisfies this). -/
def nodupKeys : Attrs → Bool
  | [] => true
  | kv :: rest => !(rest.any (fun kv2 => kv2.1 == kv.1)) && nodupKeys rest

/-- Static CRUD configuration (`CrudSettings`), reduced to what the
lifecycle operations read: the set of recognized model attributes and the
ordered identity-field names.

Modelled from the spec: `CrudSettings` itself is configuration living
outside the checked sources; §6 requires exactly a declared ordered
sequence of identity-field names and the entity attribute set. -/
structure CrudSettings where
  fields : List String
  primary_key : List String
deriving DecidableEq

/-- Typed failures raised by the lifecycle operations.
`typeErrorInvalidKeyword` is the `TypeError` raised by the SqlAlchemy
declarative constructor `Model(**input_dict)` on an unknown keyword;
`noResultFound` and `multipleResultsFound` are `sa.exc.NoResultFound` and
`sa.exc.MultipleResultsFound` raised by `Query.one()` (documented in the
`_find_instance` docstring).  `internalError` marks a state that the
Python original cannot reach (an instance disappearing from its own
session); it exists only because the embedding re-reads rows by object id. -/
inductive CrudError where
  | typeErrorInvalidKeyword (k : String)
  | noResultFound
  | multipleResultsFound
  | internalError
deriving DecidableEq

/-- One entity instance tracked by the session.  `oid` is the Python
object identity; `persisted` holds the attribute values as of the last
flush (`none` for an instance that was never flushed); `current` holds the
in-memory attribute values. -/
structure Row where
  oid : Nat
  persisted : Option Attrs
  current : Attrs
deriving DecidableEq

/-- The SqlAlchemy session, reduced to the rows it tracks, the serial
counter the database uses for generated identity values, and a fresh
object-id counter. -/
structure Session where
  rows : List Row
  next_serial : Nat
  next_oid : Nat
deriving DecidableEq

/-- True when no two tracked rows share an object id (always true of a
real session's identity map). -/
def nodupOids : List Row → Bool
  | [] => true
  | r :: rest => !(rest.any (fun r2 => r2.oid == r.oid)) && nodupOids rest

/-- Dereference an instance inside the session by its object id. -/
def Session.getRow (ssn : Session) (oid : Nat) : Option Row :=
  ssn.rows.find? (fun row => row.oid == oid)

/-- At flush time the database assigns a generated (serial) value to every
identity field of a new row that is absent or NULL. -/
def assignPkFields : List String → Attrs → Nat → Attrs × Nat
  | [], a, s => (a, s)
  | k :: rest, a, s =>
    match lookupAttr k a with
    | some v =>
      if v = AttrValue.null then assignPkFields rest (setAttr a k (.int (Int.ofNat s))) (s + 1)
      else assignPkFields rest a s
    | none => assignPkFields rest (setAttr a k (.int (Int.ofNat s))) (s + 1)

/-- Flush every tracked row in order: a never-flushed row first receives
generated identity values, then each row's current values become its
persisted values. -/
def flushRows : List Row → List String → Nat → List Row × Nat
  | [], _, s => ([], s)
  | r :: rest, pks, s =>
    match r.persisted with
    | none =>
      let as2 := assignPkFields pks r.current s
      let r2 : Row := { r with current := as2.1, persisted := some as2.1 }
      let rs2 := flushRows rest pks as2.2
      (r2 :: rs2.1, rs2.2)
    | some _ =>
      let r2 : Row := { r with persisted := some r.current }
      let rs2 := flushRows rest pks s
      (r2 :: rs2.1, rs2.2)

/-- Session.flush: synchronous write-through of all pending changes. -/
def Session.flush (ssn : Session) (pks : List String) : Session :=
  let rs := flushRows ssn.rows pks ssn.next_serial
  { ssn with rows := rs.1, next_serial := rs.2 }

/-- Session.add: start tracking a new, never-flushed instance. -/
def Session.add (ssn : Session) (a : Attrs) : Session :=
  { ssn with
    rows := ssn.rows ++ [{ oid := ssn.next_oid, persisted := none, current := a }],
    next_oid := ssn.next_oid + 1 }

/-- Overwrite the in-memory attribute values of the instance with the
given object id (Python mutates the instance in place; the session sees
the mutation through its identity map). -/
def Session.setCurrent (ssn : Session) (oid : Nat) (a : Attrs) : Session :=
  { ssn with rows := ssn.rows.map (fun row => if row.oid == oid then { row with current := a } else row) }

/-- Session.refresh: reload the instance from the database, discarding
in-memory modifications (used before delete to force full materialization). -/
def Session.refresh (ssn : Session) (oid : Nat) : Session :=
  { ssn with rows := ssn.rows.map (fun row =>
      if row.oid == oid then { row with current := row.persisted.getD row.current } else row) }

/-- Session.delete (followed by flush in the source): stop tracking the
instance and remove its database row. -/
def Session.deleteRow (ssn : Session) (oid : Nat) : Session :=
  { ssn with rows := ssn.rows.filter (fun row => row.oid != oid) }

/-- Events recorded by a lifecycle operation, in execution order: the
`_instance_hook_presave` extension point (with the attribute values of its
`new` and `prev` arguments) and the four session primitives the operations
invoke. -/
inductive Event where
  | hookPresave (newAttrs : Option Attrs) (prevAttrs : Option Attrs)
  | sessionAdd
  | sessionFlush
  | sessionRefresh
  | sessionDelete
deriving DecidableEq

/-- Modelled from the spec: `CrudParams` (the Parameters value object,
outside the checked sources).  Per spec §3/§4.1/§6 it carries the static
CRUD settings, one identity-parameter value per declared identity field
(`none` when the caller did not supply that identity value), and the
caller security predicates; `filter()`/`filter_many()` return the listing
predicate set and `filter_one()` composes it with the identity-specific
predicate. -/
structure CrudParams where
  crudsettings : CrudSettings
  pk : List (String × Option AttrValue)
  security : List (Attrs → Bool)

/-- Identity-specific predicate derived from the identity-parameter
values: every declared identity field must equal the supplied value; an
unsupplied identity value matches nothing (SQL `field = NULL` semantics). -/
def pkFilterPredicate (pk : List (String × Option AttrValue)) (a : Attrs) : Bool :=
  pk.all (fun kv =>
    match kv.2 with
    | some v => lookupAttr kv.1 a == some v
    | none => false)

/-- Modelled from the spec: `CrudParams.filter()`, the predicate set
scoping a listing (spec §4.1: arbitrary-cardinality, caller security
predicates, conjunction semantics). -/
def CrudParams.filter (p : CrudParams) : List (Attrs → Bool) :=
  p.security

/-- Modelled from the spec: `CrudParams.filter_many()`, spec §6 exposes it
as the same listing predicate set as `filter()`. -/
def CrudParams.filter_many (p : CrudParams) : List (Attrs → Bool) :=
  p.filter

/-- Modelled from the spec: `CrudParams.filter_one()`, the predicate set
selecting at most one entity — the shared security predicates plus the
identity-specific predicate (spec §4.1). -/
def CrudParams.filter_one (p : CrudParams) : List (Attrs → Bool) :=
  p.filter ++ [pkFilterPredicate p.pk]

/-- Modelled from the spec: `CrudParams.from_input_dict()`, used by
`MutateApi.update` (spec §4.2: the input must contain identity fields;
update resolves the identity from it, then behaves as `update_id`) — it
overwrites every identity-parameter value with the corresponding input
field. -/
def CrudParams.from_input_dict (p : CrudParams) (d : Attrs) : CrudParams :=
  { p with pk := p.crudsettings.primary_key.map (fun k => (k, lookupAttr k d)) }

/-- Conjunction semantics of a predicate set (spec §6): all predicates
AND together. -/
def rowMatches (preds : List (Attrs → Bool)) (a : Attrs) : Bool :=
  preds.all (fun p => p a)

/-- Modelled from the spec: `get_history_proxy_for_instance` (the
Previous-Value Snapshot, outside the checked sources).  Per spec §3 it is
a read-only view of the entity's attribute values as they were before the
current mutation began, i.e. the values last flushed for this instance;
the `copy` flag selects deep copying of mutable containers, which does not
change the exposed values. -/
def get_history_proxy_for_instance (r : Row) (copy : Bool) : Attrs :=
  let _ := copy
  r.persisted.getD r.current

/-- `MutateApiBase.COPY_INSTANCE_HISTORY`: deep copying of historical
`prev` objects is off by default. -/
def MutateApiBase.COPY_INSTANCE_HISTORY : Bool := false

/-- `MutateApiBase._find_instance`: get exactly one instance matching the
Parameters' `filter_one()` predicates.  `Query.one()` raises
`NoResultFound` on zero rows and `MultipleResultsFound` on two or more
(documented in the source docstring). -/
def findInstance (params : CrudParams) (ssn : Session) : Except CrudError Row :=
  match ssn.rows.filter (fun row => rowMatches params.filter_one row.current) with
  | [] => .error .noResultFound
  | [r] => .ok r
  | _ :: _ :: _ => .error .multipleResultsFound

/-- `MutateApiBase._create_instance_from_input_dict`:
`Model(**input_dict)` — the SqlAlchemy declarative constructor raises
`TypeError` at the first keyword that is not a declared attribute,
otherwise the new instance carries exactly the input fields. -/
def createInstanceFromInputDict (settings : CrudSettings) (d : Attrs) : Except CrudError Attrs :=
  match d.find? (fun kv => !settings.fields.contains kv.1) with
  | some kv => .error (.typeErrorInvalidKeyword kv.1)
  | none => .ok d

/-- `MutateApiBase._update_instance_from_input_dict`: a plain `setattr`
loop over the input fields.  Python `setattr` performs no validation on an
undeclared attribute name: it simply writes the instance attribute. -/
def updateInstanceFromInputDict (a : Attrs) (d : Attrs) : Attrs :=
  applyInputDict a d

/-- `MutateApi._get_primary_key_dict`: zip the declared identity-field
names with `instance_state(instance).identity`, the identity values the
persistence layer knows for the instance (available only after a flush). -/
def getPrimaryKeyDict (settings : CrudSettings) (r : Row) : List (String × Option AttrValue) :=
  settings.primary_key.zip
    (match r.persisted with
     | some p => settings.primary_key.map (fun k => lookupAttr k p)
     | none => settings.primary_key.map (fun _ => none))

/-- Minimal success payload of a mutation (`PrimaryKeyDict`). -/
abbrev PrimaryKeyDict := List (String × Option AttrValue)

/-- Everything a lifecycle operation produces: the primary-key payload,
the session state after the operation, the Parameters object after the
operation (Python mutates it in place for `update`), and the ordered
hook/session events the operation performed. -/
structure OpResult where
  pk : PrimaryKeyDict
  ssn : Session
  params : CrudParams
  events : List Event

/-- `MutateApi.create`: validate and build the instance from the input
(`_create_instance_from_input_dict`), fire the pre-save hook with
`new=instance, prev=None` (`_create_instance`), then `add` + `flush`
(`_session_create_instance_impl`), and project the primary key of the
freshly persisted instance. -/
def MutateApi.create (settings : CrudSettings) (params : CrudParams) (ssn : Session)
    (d : Attrs) : Except CrudError OpResult :=
  match createInstanceFromInputDict settings d with
  | .error e => .error e
  | .ok inst =>
    let oid := ssn.next_oid
    let ssn1 := ssn.add inst
    let ssn2 := ssn1.flush settings.primary_key
    match ssn2.getRow oid with
    | some rfin =>
      .ok { pk := getPrimaryKeyDict settings rfin
            ssn := ssn2
            params := params
            events := [.hookPresave (some inst) none, .sessionAdd, .sessionFlush] }
    | none => .error .internalError

/-- `MutateApi.update_id`: resolve the target through `_find_instance`,
apply the input fields onto it, build the previous-value snapshot from the
already-modified instance, fire the pre-save hook with
`new=instance, prev=snapshot` (`_update_instance`), `flush`
(`_session_update_instance_impl`), and project the primary key. -/
def MutateApi.update_id (settings : CrudSettings) (params : CrudParams) (ssn : Session)
    (d : Attrs) : Except CrudError OpResult :=
  match findInstance params ssn with
  | .error e => .error e
  | .ok r =>
    let inst := updateInstanceFromInputDict r.current d
    let prev := get_history_proxy_for_instance { r with current := inst }
      MutateApiBase.COPY_INSTANCE_HISTORY
    let ssn1 := ssn.setCurrent r.oid inst
    let ssn2 := ssn1.flush settings.primary_key
    match ssn2.getRow r.oid with
    | some rfin =>
      .ok { pk := getPrimaryKeyDict settings rfin
            ssn := ssn2
            params := params
            events := [.hookPresave (some inst) (some prev), .sessionFlush] }
    | none => .error .internalError

/-- `MutateApi.update`: resolve the identity from the input dictionary
into the Parameters object (`params.from_input_dict`, mutating it in
place), then behave as `update_id`. -/
def MutateApi.update (settings : CrudSettings) (params : CrudParams) (ssn : Session)
    (d : Attrs) : Except CrudError OpResult :=
  let params1 := params.from_input_dict d
  MutateApi.update_id settings params1 ssn d

/-- The dispatch test of `MutateApi.create_or_update`:
`set(input_dict) >= set(self.crudsettings.primary_key)`. -/
def pkProvidedB (settings : CrudSettings) (d : Attrs) : Bool :=
  settings.primary_key.all (fun k => d.any (fun kv => kv.1 == k))

/-- `MutateApi.create_or_update`: update when the input key set covers all
declared identity fields, create otherwise. -/
def MutateApi.create_or_update (settings : CrudSettings) (params : CrudParams) (ssn : Session)
    (d : Attrs) : Except CrudError OpResult :=
  if pkProvidedB settings d then MutateApi.update settings params ssn d
  else MutateApi.create settings params ssn d

/-- `MutateApi.delete`: resolve the target through `_find_instance`,
project its primary key while the entity still exists, fire the pre-save
hook with `new=None, prev=instance` (`_delete_instance`), then
`refresh` + `delete` + `flush` (`_session_delete_instance_impl`), and
return the previously computed primary key. -/
def MutateApi.delete (settings : CrudSettings) (params : CrudParams) (ssn : Session) :
    Except CrudError OpResult :=
  match findInstance params ssn with
  | .error e => .error e
  | .ok r =>
    let pk := getPrimaryKeyDict settings r
    let ssn1 := ssn.refresh r.oid
    let ssn2 := ssn1.deleteRow r.oid
    let ssn3 := ssn2.flush settings.primary_key
    .ok { pk := pk
          ssn := ssn3
          params := params
          events := [.hookPresave none (some r.current), .sessionRefresh, .sessionDelete,
                     .sessionFlush] }

/-- A SELECT statement under construction by the pagination/query engine:
only its accumulated WHERE predicates matter here; `Stmt.filter` appends
predicates (conjunction). -/
structure Stmt where
  filters : List (Attrs → Bool)

/-- `sa.sql.Select.filter(*predicates)`: append the predicates. -/
def Stmt.filter (stmt : Stmt) (preds : List (Attrs → Bool)) : Stmt :=
  { stmt with filters := stmt.filters ++ preds }

/-- `QueryApi._query_customize_statements`: the customization callback the
engine invokes once per query level with `(query_level, statement)` — it
injects the chosen predicate set at level 0 and returns every deeper
statement unmodified (the deeper branch is a documented TODO in the
source). -/
def queryCustomizeStatements (filter_func : Unit → List (Attrs → Bool))
    (query_level : Nat) (stmt : Stmt) : Stmt :=
  if query_level = 0 then stmt.filter (filter_func ())
  else stmt

/-- `QueryApi.list`: choose the Parameters' listing predicate set
(`params.filter` in `query/query_api.py`, the identical `filter_many` in
`crudbase.py`) and delegate to the engine's `fetchall`, which receives the
customization callback. -/
def QueryApi.list (params : CrudParams)
    (fetchall : (Nat → Stmt → Stmt) → List Attrs) : List Attrs :=
  fetchall (queryCustomizeStatements (fun _ => params.filter))

/-- `QueryApi.get`: choose the Parameters' `filter_one` predicate set and
delegate to the engine's `fetchone`. -/
def QueryApi.get (params : CrudParams)
    (fetchone : (Nat → Stmt → Stmt) → Option Attrs) : Option Attrs :=
  fetchone (queryCustomizeStatements (fun _ => params.filter_one))

/-- `QueryApi.count`: choose the Parameters' listing predicate set and
delegate to the engine's `count`. -/
def QueryApi.count (params : CrudParams)
    (countRows : (Nat → Stmt → Stmt) → Nat) : Nat :=
  countRows (queryCustomizeStatements (fun _ => params.filter))

/-- True of the event that is the pre-save hook invocation. -/
def isHookEvent : Event → Bool
  | .hookPresave _ _ => true
  | _ => false

/-- How many times an operation invoked the pre-save hook. -/
def hookCount (evs : List Event) : Nat :=
  (evs.filter isHookEvent).length

/-- True when the first flush an operation issued (if any) happens after
the first pre-save hook invocation. -/
def hookBeforeAnyFlush : List Event → Bool
  | [] => true
  | .sessionFlush :: _ => false
  | .hookPresave _ _ :: _ => true
  | _ :: rest => hookBeforeAnyFlush rest

/-- True when the very first thing an operation did was invoke the
pre-save hook (so the hook precedes add, refresh, delete and flush). -/
def firstEventIsPresaveHook : List Event → Bool
  | Event.hookPresave _ _ :: _ => true
  | _ => false

/-- What a flush does to an already-persisted row. -/
def persistRow (row : Row) : Row :=
  { row with persisted := some row.current }

/-- What `update_id` followed by a flush does to each session row when the
target row (object id `o`) receives the current values `a`: the target is
overwritten and flushed, every other row is just flushed. -/
def updRow (o : Nat) (a : Attrs) (row : Row) : Row :=
  if row.oid == o then { oid := row.oid, persisted := some a, current := a }
  else persistRow row

/-- Projection used to observe the Parameters object coming out of an
operation (its identity-parameter values). -/
def resultParamsPk (x : Except CrudError OpResult) : Option (List (String × Option AttrValue)) :=
  match x with
  | .ok r => some r.params.pk
  | .error _ => none

/-! Concrete fixtures mirroring the User table of the test-suite
(identity field `id`; columns `id`, `is_admin`, `login`, `name`). -/

def demoSettings : CrudSettings :=
  { fields := ["id", "is_admin", "login", "name"], primary_key := ["id"] }

/-- Parameters addressing the entity with `id = 1`, no security predicate. -/
def demoParams : CrudParams :=
  { crudsettings := demoSettings, pk := [("id", some (.int 1))], security := [] }

/-- Parameters whose identity value is not set yet (`id=None`). -/
def demoParamsNoId : CrudParams :=
  { crudsettings := demoSettings, pk := [("id", none)], security := [] }

/-- A clean (flushed) row with `id = 1, login = "a"`. -/
def demoRow : Row :=
  { oid := 0
    persisted := some [("id", .int 1), ("login", .str ("a"))]
    current := [("id", .int 1), ("login", .str ("a"))] }

/-- A session tracking exactly the one clean row. -/
def demoSession : Session := { rows := [demoRow], next_serial := 2, next_oid := 1 }

/-- Fallback operation result (never reached on the fixtures). -/
def demoFallback : OpResult :=
  { pk := [], ssn := demoSession, params := demoParams, events := [] }

/-- Full-identity input dictionary used to exercise `create_or_update`. -/
def c7d : Attrs := [("id", .int 1), ("login", .str ("b"))]

/-- Result of the first `create_or_update` call on the fixtures. -/
def c7res1 : OpResult :=
  match MutateApi.create_or_update demoSettings demoParams demoSession c7d with
  | .ok r => r
  | .error _ => demoFallback

/-- Result of the second, identical `create_or_update` call, continuing
from the first call's session and (possibly mutated) Parameters. -/
def c7res2 : OpResult :=
  match MutateApi.create_or_update demoSettings c7res1.params c7res1.ssn c7d with
  | .ok r => r
  | .error _ => demoFallback

/-- Boolean success test for an operation outcome. -/
def exceptIsOk (x : Except CrudError OpResult) : Bool :=
  match x with
  | .ok _ => true
  | .error _ => false

/-- Extract the result of an operation known to succeed (fixtures only). -/
def opOr (x : Except CrudError OpResult) : OpResult :=
  match x with
  | .ok r => r
  | .error _ => demoFallback

/-- Concrete run: create a row with one recognized field. -/
def c1resC : OpResult :=
  opOr (MutateApi.create demoSettings demoParams demoSession [("is_admin", .bool false)])

/-- Concrete run: update the fixture row's login. -/
def c1resU : OpResult :=
  opOr (MutateApi.update_id demoSettings demoParams demoSession [("login", .str ("b"))])

/-- Concrete run: delete the fixture row. -/
def c1resD : OpResult :=
  opOr (MutateApi.delete demoSettings demoParams demoSession)

/-- Concrete run: delete the fixture row (primary-key projection check). -/
def c4res : OpResult :=
  opOr (MutateApi.delete demoSettings demoParams demoSession)

/-- Concrete run: partial update leaving other fields untouched. -/
def c5res : OpResult :=
  opOr (MutateApi.update_id demoSettings demoParams demoSession [("login", .str ("b"))])

/-- Concrete run: update, observing the hook invocation record. -/
def c6resU : OpResult :=
  opOr (MutateApi.update_id demoSettings demoParams demoSession [("login", .str ("b"))])

/-- Concrete run: delete, observing the hook invocation record. -/
def c6resD : OpResult :=
  opOr (MutateApi.delete demoSettings demoParams demoSession)

/-- Concrete run: update_id leaving the Parameters object untouched. -/
def c9resU : OpResult :=
  opOr (MutateApi.update_id demoSettings demoParams demoSession [("login", .str ("b"))])

/-- Concrete run: update resolving its identity into the Parameters. -/
def c9resUpd : OpResult :=
  opOr (MutateApi.update demoSettings demoParamsNoId demoSession
    [("id", .int 1), ("login", .str ("b"))])

/-- Concrete run: create with a caller-supplied identity value. -/
def c10resC : OpResult :=
  opOr (MutateApi.create demoSettings demoParams demoSession
    [("id", .int 999), ("is_admin", .bool false)])

/-- Concrete run: update_id overwriting the identity value. -/
def c10resU : OpResult :=
  opOr (MutateApi.update_id demoSettings demoParams demoSession [("id", .int 999)])

/-! Helper lemmas about attribute maps. -/

theorem lookupAttr_setAttr_self (a : Attrs) (k : String) (v : AttrValue) :
    lookupAttr k (setAttr a k v) = some v := by
  induction a with
  | nil => simp [setAttr, lookupAttr]
  | cons kv rest ih =>
    obtain ⟨k2, v2⟩ := kv
    by_cases h : k2 = k
    · simp [setAttr, h, lookupAttr]
    · simp [setAttr, h, lookupAttr, ih]

theorem lookupAttr_setAttr_ne (a : Attrs) (k k2 : String) (v : AttrValue) (h : k2 ≠ k) :
    lookupAttr k (setAttr a k2 v) = lookupAttr k a := by
  induction a with
  | nil => simp [setAttr, lookupAttr, h]
  | cons kv rest ih =>
    obtain ⟨k3, v3⟩ := kv
    by_cases h3 : k3 = k2
    · subst h3
      simp [setAttr, lookupAttr, h]
    · by_cases h4 : k3 = k
      · subst h4
        simp [setAttr, lookupAttr, h3, Ne.symm h]
      · simp [setAttr, lookupAttr, h3, h4, ih]

theorem setAttr_eq_of_lookup (a : Attrs) (k : String) (v : AttrValue)
    (h : lookupAttr k a = some v) : setAttr a k v = a := by
  induction a with
  | nil => simp [lookupAttr] at h
  | cons kv rest ih =>
    obtain ⟨k2, v2⟩ := kv
    by_cases h2 : k2 = k
    · subst h2
      simp [lookupAttr] at h
      simp [setAttr, h]
    · simp [lookupAttr, h2] at h
      simp [setAttr, h2, ih h]

theorem lookupAttr_applyInputDict_not_mem (a d : Attrs) (k : String)
    (h : ∀ kv ∈ d, kv.1 ≠ k) :
    lookupAttr k (applyInputDict a d) = lookupAttr k a := by
  induction d generalizing a with
  | nil => simp [applyInputDict]
  | cons kv rest ih =>
    have hk : kv.1 ≠ k := h kv (by simp)
    have hrest : ∀ kv2 ∈ rest, kv2.1 ≠ k := fun kv2 hm => h kv2 (by simp [hm])
    calc lookupAttr k (applyInputDict a (kv :: rest))
        = lookupAttr k (applyInputDict (setAttr a kv.1 kv.2) rest) := by
          simp [applyInputDict]
      _ = lookupAttr k (setAttr a kv.1 kv.2) := ih _ hrest
      _ = lookupAttr k a := lookupAttr_setAttr_ne a k kv.1 kv.2 hk

theorem lookupAttr_applyInputDict_mem (a d : Attrs) (k : String) (v : AttrValue)
    (hnd : nodupKeys d = true) (h : lookupAttr k d = some v) :
    lookupAttr k (applyInputDict a d) = some v := by
  induction d generalizing a with
  | nil => simp [lookupAttr] at h
  | cons kv rest ih =>
    obtain ⟨k2, v2⟩ := kv
    simp only [nodupKeys, Bool.and_eq_true, Bool.not_eq_true'] at hnd
    by_cases h2 : k2 = k
    · subst h2
      simp [lookupAttr] at h
      subst h
      have hrest : ∀ kv2 ∈ rest, kv2.1 ≠ k2 := by
        intro kv2 hm heq
        have : rest.any (fun kv3 => kv3.1 == k2) = true := by
          exact List.any_eq_true.mpr ⟨kv2, hm, by simp [heq]⟩
        simp [this] at hnd
      calc lookupAttr k2 (applyInputDict a ((k2, v2) :: rest))
          = lookupAttr k2 (applyInputDict (setAttr a k2 v2) rest) := by
            simp [applyInputDict]
        _ = lookupAttr k2 (setAttr a k2 v2) := lookupAttr_applyInputDict_not_mem _ rest k2 hrest
        _ = some v2 := lookupAttr_setAttr_self a k2 v2
    · simp [lookupAttr, h2] at h
      calc lookupAttr k (applyInputDict a ((k2, v2) :: rest))
          = lookupAttr k (applyInputDict (setAttr a k2 v2) rest) := by
            simp [applyInputDict]
        _ = some v := ih _ hnd.2 h

theorem applyInputDict_eq_of_lookup (a d : Attrs)
    (h : ∀ kv ∈ d, lookupAttr kv.1 a = some kv.2) :
    applyInputDict a d = a := by
  induction d with
  | nil => simp [applyInputDict]
  | cons kv rest ih =>
    have h1 : setAttr a kv.1 kv.2 = a := setAttr_eq_of_lookup a kv.1 kv.2 (h kv (by simp))
    have h2 : ∀ kv2 ∈ rest, lookupAttr kv2.1 a = some kv2.2 := fun kv2 hm => h kv2 (by simp [hm])
    calc applyInputDict a (kv :: rest)
        = applyInputDict (setAttr a kv.1 kv.2) rest := by simp [applyInputDict]
      _ = applyInputDict a rest := by rw [h1]
      _ = a := ih h2

theorem lookupAttr_of_mem_nodupKeys (d : Attrs) (kv : String × AttrValue)
    (hnd : nodupKeys d = true) (hm : kv ∈ d) : lookupAttr kv.1 d = some kv.2 := by
  induction d with
  | nil => simp at hm
  | cons kv2 rest ih =>
    simp only [nodupKeys, Bool.and_eq_true, Bool.not_eq_true'] at hnd
    rcases List.mem_cons.mp hm with h | h
    · subst h
      obtain ⟨k2, v2⟩ := kv
      simp [lookupAttr]
    · have hne : kv2.1 ≠ kv.1 := by
        intro heq
        have : rest.any (fun kv3 => kv3.1 == kv2.1) = true :=
          List.any_eq_true.mpr ⟨kv, h, by simp [heq]⟩
        simp [this] at hnd
      obtain ⟨k2, v2⟩ := kv2
      simp only [lookupAttr]
      rw [if_neg hne]
      exact ih hnd.2 h

theorem applyInputDict_idem (a d : Attrs) (hnd : nodupKeys d = true) :
    applyInputDict (applyInputDict a d) d = applyInputDict a d := by
  apply applyInputDict_eq_of_lookup
  intro kv hm
  exact lookupAttr_applyInputDict_mem a d kv.1 kv.2 hnd (lookupAttr_of_mem_nodupKeys d kv hnd hm)

/-! Helper lemmas about the session model. -/

theorem findInstance_eq_ok_iff (params : CrudParams) (ssn : Session) (r : Row) :
    findInstance params ssn = .ok r ↔
      ssn.rows.filter (fun row => rowMatches params.filter_one row.current) = [r] := by
  rcases h : ssn.rows.filter (fun row => rowMatches params.filter_one row.current) with
    _ | ⟨r1, _ | ⟨r2, t⟩⟩ <;> simp [findInstance, h]

theorem findInstance_eq_noResult_iff (params : CrudParams) (ssn : Session) :
    findInstance params ssn = .error .noResultFound ↔
      ssn.rows.filter (fun row => rowMatches params.filter_one row.current) = [] := by
  rcases h : ssn.rows.filter (fun row => rowMatches params.filter_one row.current) with
    _ | ⟨r1, _ | ⟨r2, t⟩⟩ <;> simp [findInstance, h]

theorem findInstance_eq_multiple_iff (params : CrudParams) (ssn : Session) :
    findInstance params ssn = .error .multipleResultsFound ↔
      2 ≤ (ssn.rows.filter (fun row => rowMatches params.filter_one row.current)).length := by
  rcases h : ssn.rows.filter (fun row => rowMatches params.filter_one row.current) with
    _ | ⟨r1, _ | ⟨r2, t⟩⟩ <;> simp [findInstance, h]

theorem find?_map_oid_preserving (rows : List Row) (g : Row → Row) (o : Nat)
    (hg : ∀ row, (g row).oid = row.oid) :
    List.find? (fun row => row.oid == o) (rows.map g) =
      Option.map g (List.find? (fun row => row.oid == o) rows) := by
  induction rows with
  | nil => simp
  | cons r rest ih =>
    rcases h : r.oid == o with _ | _
    · simp only [List.map_cons, List.find?_cons, hg, h, ih]
    · simp [List.map_cons, List.find?_cons, hg, h]

theorem eq_of_mem_nodupOids (rows : List Row) (r row0 : Row)
    (hnd : nodupOids rows = true) (hr : r ∈ rows) (h0 : row0 ∈ rows)
    (hoid : row0.oid = r.oid) : row0 = r := by
  induction rows with
  | nil => simp at hr
  | cons r1 rest ih =>
    simp only [nodupOids, Bool.and_eq_true, Bool.not_eq_true'] at hnd
    rcases List.mem_cons.mp hr with hr1 | hr1 <;> rcases List.mem_cons.mp h0 with h01 | h01
    · rw [h01, hr1]
    · subst hr1
      exfalso
      have : rest.any (fun r2 => r2.oid == r.oid) = true :=
        List.any_eq_true.mpr ⟨row0, h01, by simp [hoid]⟩
      simp [this] at hnd
    · subst h01
      exfalso
      have : rest.any (fun r2 => r2.oid == row0.oid) = true :=
        List.any_eq_true.mpr ⟨r, hr1, by simp [hoid]⟩
      simp [this] at hnd
    · exact ih hnd.2 hr1 h01

theorem find?_of_mem_nodupOids (rows : List Row) (r : Row)
    (hnd : nodupOids rows = true) (hr : r ∈ rows) :
    List.find? (fun row => row.oid == r.oid) rows = some r := by
  induction rows with
  | nil => simp at hr
  | cons r1 rest ih =>
    simp only [nodupOids, Bool.and_eq_true, Bool.not_eq_true'] at hnd
    rcases List.mem_cons.mp hr with hr1 | hr1
    · subst hr1
      simp only [List.find?_cons, beq_self_eq_true]
    · have hne : (r1.oid == r.oid) = false := by
        rw [beq_eq_false_iff_ne]
        intro heq
        have : rest.any (fun r2 => r2.oid == r1.oid) = true :=
          List.any_eq_true.mpr ⟨r, hr1, by simp [heq]⟩
        simp [this] at hnd
      simp only [List.find?_cons, hne]
      exact ih hnd.2 hr1

theorem flushRows_all_persisted (rows : List Row) (pks : List String) (s : Nat)
    (h : rows.all (fun r => r.persisted.isSome) = true) :
    flushRows rows pks s = (rows.map (fun r => { r with persisted := some r.current }), s) := by
  induction rows with
  | nil => simp [flushRows]
  | cons r rest ih =>
    simp only [List.all_cons, Bool.and_eq_true] at h
    rcases hp : r.persisted with _ | p
    · rw [hp] at h
      simp at h
    · simp only [flushRows, hp, ih h.2, List.map_cons]

theorem flushRows_find? (rows : List Row) (pks : List String) (s : Nat) (o : Nat)
    (r : Row) (p : Attrs) (hfind : List.find? (fun row => row.oid == o) rows = some r)
    (hp : r.persisted = some p) :
    List.find? (fun row => row.oid == o) (flushRows rows pks s).1 =
      some { r with persisted := some r.current } := by
  induction rows generalizing s with
  | nil => simp at hfind
  | cons r1 rest ih =>
    rcases h : r1.oid == o with _ | _
    · simp only [List.find?_cons, h] at hfind
      rcases hp1 : r1.persisted with _ | p1 <;> simp only [flushRows, hp1] <;>
        simp only [List.find?_cons, h] <;> exact ih _ hfind
    · simp only [List.find?_cons, h] at hfind
      injection hfind with hfind
      subst hfind
      rcases hp1 : r1.persisted with _ | p1
      · rw [hp1] at hp
        exact absurd hp (by simp)
      · simp only [flushRows, hp1]
        simp only [List.find?_cons, h]

theorem flushRows_oids (rows : List Row) (pks : List String) (s : Nat) :
    (flushRows rows pks s).1.map Row.oid = rows.map Row.oid := by
  induction rows generalizing s with
  | nil => simp [flushRows]
  | cons r rest ih =>
    rcases hp : r.persisted with _ | p <;> simp only [flushRows, hp, List.map_cons, ih]

theorem lookupAttr_assignPkFields (pks : List String) (a : Attrs) (s : Nat)
    (k : String) (v : AttrValue) (h : lookupAttr k a = some v) (hv : v ≠ .null) :
    lookupAttr k (assignPkFields pks a s).1 = some v := by
  induction pks generalizing a s with
  | nil => simpa [assignPkFields] using h
  | cons k1 rest ih =>
    by_cases hk : k1 = k
    · subst hk
      simp only [assignPkFields, h]
      rw [if_neg hv]
      exact ih a s h
    · rcases h1 : lookupAttr k1 a with _ | v1 <;> simp only [assignPkFields, h1]
      · exact ih _ _ (by rw [lookupAttr_setAttr_ne a k k1 _ hk]; exact h)
      · by_cases hnull : v1 = AttrValue.null
        · rw [if_pos hnull]
          exact ih _ _ (by rw [lookupAttr_setAttr_ne a k k1 _ hk]; exact h)
        · rw [if_neg hnull]
          exact ih _ _ h

theorem zip_map_self {α β : Type} (l : List α) (f : α → β) :
    l.zip (l.map f) = l.map (fun x => (x, f x)) := by
  induction l with
  | nil => simp
  | cons x rest ih => simp [ih]

theorem getPrimaryKeyDict_persisted (settings : CrudSettings) (r : Row) (p : Attrs)
    (hp : r.persisted = some p) :
    getPrimaryKeyDict settings r =
      settings.primary_key.map (fun k => (k, lookupAttr k p)) := by
  unfold getPrimaryKeyDict
  rw [hp, zip_map_self]

/-! Shape lemmas: what a successful lifecycle operation consists of. -/

theorem create_ok_destruct (settings : CrudSettings) (params : CrudParams) (ssn : Session)
    (d : Attrs) (res : OpResult) (h : MutateApi.create settings params ssn d = .ok res) :
    ∃ rfin,
      createInstanceFromInputDict settings d = .ok d ∧
      ((ssn.add d).flush settings.primary_key).getRow ssn.next_oid = some rfin ∧
      res = { pk := getPrimaryKeyDict settings rfin
              ssn := (ssn.add d).flush settings.primary_key
              params := params
              events := [.hookPresave (some d) none, .sessionAdd, .sessionFlush] } := by
  rcases hc : createInstanceFromInputDict settings d with e | inst
  · simp only [MutateApi.create, hc] at h
    exact absurd h (by simp)
  · have hinst : inst = d := by
      unfold createInstanceFromInputDict at hc
      rcases hf : d.find? (fun kv => !settings.fields.contains kv.1) with _ | kv <;>
        rw [hf] at hc
      · injection hc with hc
        exact hc.symm
      · exact absurd hc (by simp)
    subst hinst
    rcases hr : ((ssn.add inst).flush settings.primary_key).getRow ssn.next_oid with _ | rfin
    · simp only [MutateApi.create, hc, hr] at h
      exact absurd h (by simp)
    · simp only [MutateApi.create, hc, hr, Except.ok.injEq] at h
      exact ⟨rfin, rfl, rfl, h.symm⟩

theorem update_id_ok_destruct (settings : CrudSettings) (params : CrudParams) (ssn : Session)
    (d : Attrs) (res : OpResult) (h : MutateApi.update_id settings params ssn d = .ok res) :
    ∃ r rfin,
      findInstance params ssn = .ok r ∧
      ((ssn.setCurrent r.oid (updateInstanceFromInputDict r.current d)).flush
        settings.primary_key).getRow r.oid = some rfin ∧
      res = { pk := getPrimaryKeyDict settings rfin
              ssn := (ssn.setCurrent r.oid (updateInstanceFromInputDict r.current d)).flush
                settings.primary_key
              params := params
              events := [.hookPresave (some (updateInstanceFromInputDict r.current d))
                           (some (get_history_proxy_for_instance
                              { r with current := updateInstanceFromInputDict r.current d }
                              MutateApiBase.COPY_INSTANCE_HISTORY)),
                         .sessionFlush] } := by
  rcases hfi : findInstance params ssn with e | r
  · simp only [MutateApi.update_id, hfi] at h
    exact absurd h (by simp)
  · rcases hr : ((ssn.setCurrent r.oid (updateInstanceFromInputDict r.current d)).flush
        settings.primary_key).getRow r.oid with _ | rfin
    · simp only [MutateApi.update_id, hfi, hr] at h
      exact absurd h (by simp)
    · simp only [MutateApi.update_id, hfi, hr, Except.ok.injEq] at h
      exact ⟨r, rfin, rfl, hr, h.symm⟩

theorem delete_ok_destruct (settings : CrudSettings) (params : CrudParams) (ssn : Session)
    (res : OpResult) (h : MutateApi.delete settings params ssn = .ok res) :
    ∃ r,
      findInstance params ssn = .ok r ∧
      res = { pk := getPrimaryKeyDict settings r
              ssn := ((ssn.refresh r.oid).deleteRow r.oid).flush settings.primary_key
              params := params
              events := [.hookPresave none (some r.current), .sessionRefresh, .sessionDelete,
                         .sessionFlush] } := by
  rcases hfi : findInstance params ssn with e | r
  · simp only [MutateApi.delete, hfi] at h
    exact absurd h (by simp)
  · simp only [MutateApi.delete, hfi, Except.ok.injEq] at h
    exact ⟨r, rfl, h.symm⟩

theorem updRow_oid (o : Nat) (a : Attrs) (row : Row) : (updRow o a row).oid = row.oid := by
  unfold updRow persistRow
  split <;> rfl

theorem findInstance_ok_mem (params : CrudParams) (ssn : Session) (r : Row)
    (h : findInstance params ssn = .ok r) : r ∈ ssn.rows := by
  have hf := (findInstance_eq_ok_iff params ssn r).mp h
  have hm : r ∈ ssn.rows.filter (fun row => rowMatches params.filter_one row.current) := by
    rw [hf]
    simp
  exact (List.mem_filter.mp hm).1

theorem findInstance_ok_matches (params : CrudParams) (ssn : Session) (r : Row)
    (h : findInstance params ssn = .ok r) :
    rowMatches params.filter_one r.current = true := by
  have hf := (findInstance_eq_ok_iff params ssn r).mp h
  have hm : r ∈ ssn.rows.filter (fun row => rowMatches params.filter_one row.current) := by
    rw [hf]
    simp
  exact (List.mem_filter.mp hm).2

theorem update_id_ok_state (settings : CrudSettings) (params : CrudParams) (ssn : Session)
    (d : Attrs) (res : OpResult) (r : Row)
    (hwf : nodupOids ssn.rows = true)
    (hpersist : ssn.rows.all (fun row => row.persisted.isSome) = true)
    (hfind : findInstance params ssn = .ok r)
    (h : MutateApi.update_id settings params ssn d = .ok res) :
    res.ssn = { rows := ssn.rows.map (updRow r.oid (updateInstanceFromInputDict r.current d))
                next_serial := ssn.next_serial
                next_oid := ssn.next_oid } ∧
    res.ssn.getRow r.oid = some
      { oid := r.oid
        persisted := some (updateInstanceFromInputDict r.current d)
        current := updateInstanceFromInputDict r.current d } ∧
    res.pk = getPrimaryKeyDict settings
      { oid := r.oid
        persisted := some (updateInstanceFromInputDict r.current d)
        current := updateInstanceFromInputDict r.current d } ∧
    res.params = params := by
  obtain ⟨r2, rfin, hfind2, hget, hres⟩ := update_id_ok_destruct settings params ssn d res h
  have hr2 : r2 = r := by
    have := hfind.symm.trans hfind2
    injection this with this
    exact this.symm
  subst hr2
  have hpersist2 : ((ssn.setCurrent r2.oid (updateInstanceFromInputDict r2.current d)).rows).all
      (fun row => row.persisted.isSome) = true := by
    rw [List.all_eq_true] at hpersist ⊢
    intro x hx
    simp only [Session.setCurrent] at hx
    obtain ⟨row0, hrow0, rfl⟩ := List.mem_map.mp hx
    have hsame : (if (row0.oid == r2.oid) = true
        then { row0 with current := updateInstanceFromInputDict r2.current d } else row0).persisted
        = row0.persisted := by
      split <;> rfl
    simp only [hsame]
    exact hpersist _ hrow0
  have hflush := flushRows_all_persisted
    ((ssn.setCurrent r2.oid (updateInstanceFromInputDict r2.current d)).rows)
    settings.primary_key
    ((ssn.setCurrent r2.oid (updateInstanceFromInputDict r2.current d)).next_serial)
    hpersist2
  have hfun : ∀ row : Row,
      persistRow (if (row.oid == r2.oid) = true
        then { row with current := updateInstanceFromInputDict r2.current d } else row)
      = updRow r2.oid (updateInstanceFromInputDict r2.current d) row := by
    intro row
    unfold updRow persistRow
    split <;> rfl
  have hrows : ((ssn.setCurrent r2.oid (updateInstanceFromInputDict r2.current d)).flush
      settings.primary_key).rows
      = ssn.rows.map (updRow r2.oid (updateInstanceFromInputDict r2.current d)) := by
    show (flushRows _ _ _).1 = _
    rw [hflush]
    show ((ssn.rows.map _).map persistRow) = _
    rw [List.map_map]
    exact List.map_congr_left (fun row _ => hfun row)
  have hserial : ((ssn.setCurrent r2.oid (updateInstanceFromInputDict r2.current d)).flush
      settings.primary_key).next_serial = ssn.next_serial := by
    show (flushRows _ _ _).2 = _
    rw [hflush]
    rfl
  have hssn : (ssn.setCurrent r2.oid (updateInstanceFromInputDict r2.current d)).flush
      settings.primary_key
      = { rows := ssn.rows.map (updRow r2.oid (updateInstanceFromInputDict r2.current d))
          next_serial := ssn.next_serial
          next_oid := ssn.next_oid } := by
    rcases hs : (ssn.setCurrent r2.oid (updateInstanceFromInputDict r2.current d)).flush
      settings.primary_key with ⟨rs, s1, o1⟩
    have h1 : rs = ssn.rows.map (updRow r2.oid (updateInstanceFromInputDict r2.current d)) := by
      rw [← hrows, hs]
    have h2 : s1 = ssn.next_serial := by rw [← hserial, hs]
    have h3 : o1 = ssn.next_oid := by
      have : ((ssn.setCurrent r2.oid (updateInstanceFromInputDict r2.current d)).flush
        settings.primary_key).next_oid = ssn.next_oid := rfl
      rw [hs] at this
      exact this
    rw [h1, h2, h3]
  have hgetfin : ((ssn.setCurrent r2.oid (updateInstanceFromInputDict r2.current d)).flush
      settings.primary_key).getRow r2.oid = some
      { oid := r2.oid
        persisted := some (updateInstanceFromInputDict r2.current d)
        current := updateInstanceFromInputDict r2.current d } := by
    rw [hssn]
    show List.find? _ (ssn.rows.map _) = _
    rw [find?_map_oid_preserving _ _ _ (fun row => updRow_oid _ _ row),
      find?_of_mem_nodupOids ssn.rows r2 hwf (findInstance_ok_mem params ssn r2 hfind)]
    show some (updRow r2.oid (updateInstanceFromInputDict r2.current d) r2) = _
    unfold updRow
    rw [if_pos (by simp)]
  have hrfin : rfin = { oid := r2.oid
                        persisted := some (updateInstanceFromInputDict r2.current d)
                        current := updateInstanceFromInputDict r2.current d } := by
    have := hget.symm.trans hgetfin
    injection this with this
  subst hres
  refine ⟨hssn, hgetfin, ?_, rfl⟩
  show getPrimaryKeyDict settings rfin = _
  rw [hrfin]

theorem flushRows_find?_fresh (rows : List Row) (pks : List String) (s o : Nat) (a : Attrs)
    (hfresh : rows.all (fun row => row.oid != o) = true) :
    ∃ s0, List.find? (fun row => row.oid == o)
        (flushRows (rows ++ [{ oid := o, persisted := none, current := a }]) pks s).1 =
      some { oid := o
             persisted := some (assignPkFields pks a s0).1
             current := (assignPkFields pks a s0).1 } := by
  induction rows generalizing s with
  | nil =>
    refine ⟨s, ?_⟩
    simp only [List.nil_append, flushRows]
    simp [List.find?_cons]
  | cons r1 rest ih =>
    simp only [List.all_cons, Bool.and_eq_true] at hfresh
    have hne : (r1.oid == o) = false := by
      have h1 := hfresh.1
      rw [bne_iff_ne] at h1
      exact beq_eq_false_iff_ne.mpr h1
    rcases hp1 : r1.persisted with _ | p1 <;> simp only [List.cons_append, flushRows, hp1]
    · obtain ⟨s0, hs0⟩ := ih _ hfresh.2
      refine ⟨s0, ?_⟩
      simp only [List.find?_cons, hne]
      exact hs0
    · obtain ⟨s0, hs0⟩ := ih s hfresh.2
      refine ⟨s0, ?_⟩
      simp only [List.find?_cons, hne]
      exact hs0

theorem create_ok_state (settings : CrudSettings) (params : CrudParams) (ssn : Session)
    (d : Attrs) (res : OpResult)
    (hfresh : ssn.rows.all (fun row => row.oid != ssn.next_oid) = true)
    (h : MutateApi.create settings params ssn d = .ok res) :
    ∃ s0,
      res.ssn.getRow ssn.next_oid = some
        { oid := ssn.next_oid
          persisted := some (assignPkFields settings.primary_key d s0).1
          current := (assignPkFields settings.primary_key d s0).1 } ∧
      res.pk = getPrimaryKeyDict settings
        { oid := ssn.next_oid
          persisted := some (assignPkFields settings.primary_key d s0).1
          current := (assignPkFields settings.primary_key d s0).1 } ∧
      res.params = params := by
  obtain ⟨rfin, hc, hget, hres⟩ := create_ok_destruct settings params ssn d res h
  obtain ⟨s0, hs0⟩ := flushRows_find?_fresh ssn.rows settings.primary_key ssn.next_serial
    ssn.next_oid d hfresh
  have hget2 : ((ssn.add d).flush settings.primary_key).getRow ssn.next_oid = some
      { oid := ssn.next_oid
        persisted := some (assignPkFields settings.primary_key d s0).1
        current := (assignPkFields settings.primary_key d s0).1 } := hs0
  have hrfin : rfin = { oid := ssn.next_oid
                        persisted := some (assignPkFields settings.primary_key d s0).1
                        current := (assignPkFields settings.primary_key d s0).1 } := by
    have := hget.symm.trans hget2
    injection this with this
  subst hres
  exact ⟨s0, hget2, by rw [hrfin], rfl⟩

theorem mem_flush_oid (rows : List Row) (pks : List String) (s : Nat) (row : Row)
    (h : row ∈ (flushRows rows pks s).1) : row.oid ∈ rows.map Row.oid := by
  have h2 : row.oid ∈ (flushRows rows pks s).1.map Row.oid := List.mem_map_of_mem _ h
  rwa [flushRows_oids] at h2

/-! Claim theorems. -/

/-- C1: for every lifecycle operation (create, update_id, delete) of
MutateApi, the pre-save hook is invoked exactly once, and that invocation
precedes every flush the operation issues — indeed it is the first thing
the operation does against the session (before add+flush on create,
before flush on update, before refresh+delete+flush on delete). -/
theorem C1_presave_hook_once_before_flush :
    ∀ (settings : CrudSettings) (params : CrudParams) (ssn : Session) (d : Attrs)
      (res : OpResult),
      (MutateApi.create settings params ssn d = .ok res →
        hookCount res.events = 1 ∧ hookBeforeAnyFlush res.events = true ∧
        firstEventIsPresaveHook res.events = true) ∧
      (MutateApi.update_id settings params ssn d = .ok res →
        hookCount res.events = 1 ∧ hookBeforeAnyFlush res.events = true ∧
        firstEventIsPresaveHook res.events = true) ∧
      (MutateApi.delete settings params ssn = .ok res →
        hookCount res.events = 1 ∧ hookBeforeAnyFlush res.events = true ∧
        firstEventIsPresaveHook res.events = true) := by
  intro settings params ssn d res
  refine ⟨?_, ?_, ?_⟩
  · intro h
    obtain ⟨rfin, hc, hget, hres⟩ := create_ok_destruct settings params ssn d res h
    subst hres
    exact ⟨rfl, rfl, rfl⟩
  · intro h
    obtain ⟨r, rfin, hfind, hget, hres⟩ := update_id_ok_destruct settings params ssn d res h
    subst hres
    exact ⟨rfl, rfl, rfl⟩
  · intro h
    obtain ⟨r, hfind, hres⟩ := delete_ok_destruct settings params ssn res h
    subst hres
    exact ⟨rfl, rfl, rfl⟩

/-- C1 witness: on the concrete fixtures, each of the three operations
succeeds and its event trace has exactly one hook invocation, before any
flush. -/
theorem C1_witness :
    (hookCount c1resC.events = 1 ∧ hookBeforeAnyFlush c1resC.events = true ∧
      firstEventIsPresaveHook c1resC.events = true) ∧
    (hookCount c1resU.events = 1 ∧ hookBeforeAnyFlush c1resU.events = true ∧
      firstEventIsPresaveHook c1resU.events = true) ∧
    (hookCount c1resD.events = 1 ∧ hookBeforeAnyFlush c1resD.events = true ∧
      firstEventIsPresaveHook c1resD.events = true) :=
  ⟨(C1_presave_hook_once_before_flush demoSettings demoParams demoSession
      [("is_admin", .bool false)] c1resC).1 (by rfl),
   (C1_presave_hook_once_before_flush demoSettings demoParams demoSession
      [("login", .str ("b"))] c1resU).2.1 (by rfl),
   (C1_presave_hook_once_before_flush demoSettings demoParams demoSession
      [("login", .str ("b"))] c1resD).2.2 (by rfl)⟩

/-- C2: resolving the target entity via the Parameters' `filter_one`
predicates yields exactly one entity or fails: zero matches raise
NoResultFound, two or more raise MultipleResultsFound, and these two
failure kinds are distinguishable; a unique match is returned as is, so
the operation never silently picks one of several matching entities. -/
theorem C2_find_instance_exactly_one :
    ∀ (params : CrudParams) (ssn : Session),
      (findInstance params ssn = .error .noResultFound ↔
        ssn.rows.filter (fun row => rowMatches params.filter_one row.current) = []) ∧
      (findInstance params ssn = .error .multipleResultsFound ↔
        2 ≤ (ssn.rows.filter (fun row => rowMatches params.filter_one row.current)).length) ∧
      (∀ r, ssn.rows.filter (fun row => rowMatches params.filter_one row.current) = [r] →
        findInstance params ssn = .ok r) ∧
      CrudError.noResultFound ≠ CrudError.multipleResultsFound := by
  intro params ssn
  refine ⟨findInstance_eq_noResult_iff params ssn, findInstance_eq_multiple_iff params ssn,
    ?_, by simp⟩
  intro r h
  exact (findInstance_eq_ok_iff params ssn r).mpr h

/-- C2 witness: on the fixture session exactly one row matches, and
`findInstance` returns it. -/
theorem C2_witness : findInstance demoParams demoSession = .ok demoRow :=
  (C2_find_instance_exactly_one demoParams demoSession).2.2.1 demoRow (by decide)

/-- C3: list() and count() bind the Parameters' filter/filter_many
predicate set and get() binds filter_one into the query engine's
customization hook; the hook injects the chosen predicates only at query
nesting level 0 and returns every deeper statement unmodified, so nested
sub-queries carry no caller security predicates. -/
theorem C3_filters_injected_at_level0_only :
    ∀ (params : CrudParams) (stmt : Stmt) (lvl : Nat)
      (fetchall : (Nat → Stmt → Stmt) → List Attrs)
      (fetchone : (Nat → Stmt → Stmt) → Option Attrs)
      (countRows : (Nat → Stmt → Stmt) → Nat),
      QueryApi.list params fetchall
        = fetchall (queryCustomizeStatements (fun _ => params.filter_many)) ∧
      QueryApi.count params countRows
        = countRows (queryCustomizeStatements (fun _ => params.filter_many)) ∧
      QueryApi.get params fetchone
        = fetchone (queryCustomizeStatements (fun _ => params.filter_one)) ∧
      queryCustomizeStatements (fun _ => params.filter) 0 stmt
        = stmt.filter params.filter ∧
      queryCustomizeStatements (fun _ => params.filter_one) 0 stmt
        = stmt.filter params.filter_one ∧
      (lvl ≠ 0 → ∀ f : Unit → List (Attrs → Bool),
        queryCustomizeStatements f lvl stmt = stmt) := by
  intro params stmt lvl fetchall fetchone countRows
  refine ⟨rfl, rfl, rfl, by simp [queryCustomizeStatements], by simp [queryCustomizeStatements],
    ?_⟩
  intro hlvl f
  simp [queryCustomizeStatements, hlvl]

/-- C3 witness: at nesting level 1 the statement comes back unmodified. -/
theorem C3_witness :
    queryCustomizeStatements (fun _ => demoParams.filter) 1 { filters := [] }
      = { filters := [] } :=
  ((C3_filters_injected_at_level0_only demoParams { filters := [] } 1 (fun _ => [])
    (fun _ => none) (fun _ => 0)).2.2.2.2.2 (by decide)) (fun _ => demoParams.filter)

/-- C4: a successful delete() returns the primary-key mapping computed
from the entity as it was found — before refresh, delete and flush — and
afterwards the entity is gone from the session. -/
theorem C4_delete_pk_computed_before_removal :
    ∀ (settings : CrudSettings) (params : CrudParams) (ssn : Session) (res : OpResult)
      (r : Row),
      findInstance params ssn = .ok r →
      MutateApi.delete settings params ssn = .ok res →
      res.pk = getPrimaryKeyDict settings r ∧
      ∀ row ∈ res.ssn.rows, row.oid ≠ r.oid := by
  intro settings params ssn res r hfind h
  obtain ⟨r2, hfind2, hres⟩ := delete_ok_destruct settings params ssn res h
  have hr2 : r2 = r := by
    have h3 := hfind.symm.trans hfind2
    injection h3 with h3
    exact h3.symm
  subst hr2
  subst hres
  refine ⟨rfl, ?_⟩
  intro row hrow
  have hoid : row.oid ∈ (((ssn.refresh r2.oid).deleteRow r2.oid).rows).map Row.oid :=
    mem_flush_oid _ _ _ _ hrow
  obtain ⟨row0, hm0, hoid0⟩ := List.mem_map.mp hoid
  have hpred := (List.mem_filter.mp hm0).2
  rw [bne_iff_ne] at hpred
  rw [← hoid0]
  exact hpred

/-- C4 witness: deleting the fixture row returns its identity `id = 1`. -/
theorem C4_witness : c4res.pk = getPrimaryKeyDict demoSettings demoRow :=
  (C4_delete_pk_computed_before_removal demoSettings demoParams demoSession c4res demoRow
    (by rfl) (by rfl)).1

/-- C5: update_id is partial — every entity attribute whose field name is
absent from the input dictionary keeps its prior value after the update
completes (absence means do-not-touch, not set-to-null). -/
theorem C5_update_partial_semantics :
    ∀ (settings : CrudSettings) (params : CrudParams) (ssn : Session) (d : Attrs)
      (res : OpResult) (r : Row) (k : String),
      nodupOids ssn.rows = true →
      ssn.rows.all (fun row => row.persisted.isSome) = true →
      findInstance params ssn = .ok r →
      MutateApi.update_id settings params ssn d = .ok res →
      d.all (fun kv => !(kv.1 == k)) = true →
      (res.ssn.getRow r.oid).map (fun row => lookupAttr k row.current)
        = some (lookupAttr k r.current) := by
  intro settings params ssn d res r k hwf hpersist hfind h hk
  obtain ⟨hssn, hget, hpk, hparams⟩ :=
    update_id_ok_state settings params ssn d res r hwf hpersist hfind h
  rw [hget]
  simp only [Option.map]
  have hk2 : ∀ kv ∈ d, kv.1 ≠ k := by
    rw [List.all_eq_true] at hk
    intro kv hm
    have := hk kv hm
    simpa using this
  rw [show lookupAttr k (updateInstanceFromInputDict r.current d)
      = lookupAttr k r.current from lookupAttr_applyInputDict_not_mem r.current d k hk2]

/-- C5 witness: updating only `login` leaves the `id` attribute of the
fixture row unchanged. -/
theorem C5_witness :
    (c5res.ssn.getRow demoRow.oid).map (fun row => lookupAttr ("id") row.current)
      = some (lookupAttr ("id") demoRow.current) :=
  C5_update_partial_semantics demoSettings demoParams demoSession [("login", .str ("b"))] c5res demoRow
    ("id") (by decide) (by decide) (by rfl) (by rfl) (by decide)

/-- C6: for update and delete, the previous-snapshot handed to the
pre-save hook reflects the entity's attribute values strictly before this
operation's own field mutations — although the snapshot is built after
the input fields were assigned onto the entity, and regardless of
unrelated pending changes elsewhere in the session (the hypotheses
constrain only the target row). -/
theorem C6_prev_snapshot_preop_values :
    ∀ (settings : CrudSettings) (params : CrudParams) (ssn : Session) (d : Attrs)
      (res resD : OpResult) (r : Row),
      findInstance params ssn = .ok r →
      r.persisted = some r.current →
      (MutateApi.update_id settings params ssn d = .ok res →
        res.events = [.hookPresave (some (updateInstanceFromInputDict r.current d))
          (some r.current), .sessionFlush]) ∧
      (MutateApi.delete settings params ssn = .ok resD →
        resD.events = [.hookPresave none (some r.current), .sessionRefresh, .sessionDelete,
          .sessionFlush]) := by
  intro settings params ssn d res resD r hfind hclean
  constructor
  · intro h
    obtain ⟨r2, rfin, hfind2, hget, hres⟩ := update_id_ok_destruct settings params ssn d res h
    have hr2 : r2 = r := by
      have h3 := hfind.symm.trans hfind2
      injection h3 with h3
      exact h3.symm
    subst hr2
    subst hres
    simp only [get_history_proxy_for_instance, hclean, Option.getD]
  · intro h
    obtain ⟨r2, hfind2, hres⟩ := delete_ok_destruct settings params ssn resD h
    have hr2 : r2 = r := by
      have h3 := hfind.symm.trans hfind2
      injection h3 with h3
      exact h3.symm
    subst hr2
    subst hres
    rfl

/-- C6 witness: on the fixtures, the update hook sees the old `login`
value in `prev` while `new` carries the assigned one, and the delete hook
receives the entity's values as `prev`. -/
theorem C6_witness :
    c6resU.events = [.hookPresave
        (some (updateInstanceFromInputDict demoRow.current [("login", .str ("b"))]))
        (some demoRow.current), .sessionFlush] ∧
    c6resD.events = [.hookPresave none (some demoRow.current), .sessionRefresh,
      .sessionDelete, .sessionFlush] :=
  ⟨(C6_prev_snapshot_preop_values demoSettings demoParams demoSession [("login", .str ("b"))]
      c6resU c6resD demoRow (by rfl) (by decide)).1 (by rfl),
   (C6_prev_snapshot_preop_values demoSettings demoParams demoSession [("login", .str ("b"))]
      c6resU c6resD demoRow (by rfl) (by decide)).2 (by rfl)⟩

theorem findInstance_error_kinds (params : CrudParams) (ssn : Session) (e : CrudError)
    (h : findInstance params ssn = .error e) :
    e = .noResultFound ∨ e = .multipleResultsFound := by
  unfold findInstance at h
  rcases hf : ssn.rows.filter (fun row => rowMatches params.filter_one row.current) with
    _ | ⟨r1, _ | ⟨r2, t⟩⟩ <;> rw [hf] at h
  · injection h with h
    exact Or.inl h.symm
  · exact absurd h (by simp)
  · injection h with h
    exact Or.inr h.symm

/-- C8 counterexample: an update_id call whose input dictionary contains
the unrecognized key UNKNOWN succeeds instead of signalling an
invalid-field failure — Python `setattr` silently writes the undeclared
attribute. -/
theorem C8_counterexample :
    exceptIsOk (MutateApi.update_id demoSettings demoParams demoSession
      [("UNKNOWN", .str ("x"))]) = true ∧
    demoSettings.fields.contains ("UNKNOWN") = false := by
  exact ⟨by decide, by decide⟩

/-- C8 amended: only create signals the invalid-field failure — the
entity constructor raises a TypeError naming the first unrecognized input
key — whereas update_id never raises an invalid-field failure: its
`setattr` loop silently accepts unknown keys. -/
theorem C8_amended_unknown_field :
    (∀ (settings : CrudSettings) (params : CrudParams) (ssn : Session) (d : Attrs)
      (kv : String × AttrValue),
      d.find? (fun kv2 => !settings.fields.contains kv2.1) = some kv →
      MutateApi.create settings params ssn d = .error (.typeErrorInvalidKeyword kv.1)) ∧
    (∀ (settings : CrudSettings) (params : CrudParams) (ssn : Session) (d : Attrs)
      (k : String),
      MutateApi.update_id settings params ssn d ≠ .error (.typeErrorInvalidKeyword k)) := by
  constructor
  · intro settings params ssn d kv hfound
    simp only [MutateApi.create, createInstanceFromInputDict, hfound]
  · intro settings params ssn d k h
    rcases hfi : findInstance params ssn with e | r
    · simp only [MutateApi.update_id, hfi] at h
      injection h with h
      rcases findInstance_error_kinds params ssn e hfi with he | he <;> rw [he] at h <;>
        exact absurd h (by simp)
    · rcases hr2 : ((ssn.setCurrent r.oid (updateInstanceFromInputDict r.current d)).flush
          settings.primary_key).getRow r.oid with _ | rfin2
      · simp only [MutateApi.update_id, hfi, hr2] at h
        injection h with h
        exact absurd h (by simp)
      · simp only [MutateApi.update_id, hfi, hr2] at h
        exact absurd h (by simp)

/-- C8 witness: creating with the unrecognized key UNKNOWN raises the
TypeError-style invalid-field failure naming that key. -/
theorem C8_witness :
    MutateApi.create demoSettings demoParams demoSession [("UNKNOWN", .str ("x"))]
      = .error (.typeErrorInvalidKeyword ("UNKNOWN")) :=
  C8_amended_unknown_field.1 demoSettings demoParams demoSession [("UNKNOWN", .str ("x"))]
    ("UNKNOWN", .str ("x")) (by decide)

/-- C9 counterexample: `update` does modify the Parameters object — after
calling update with an input carrying `id = 1`, the Parameters' identity
value, which was unset before the call, holds 1. -/
theorem C9_counterexample :
    resultParamsPk (MutateApi.update demoSettings demoParamsNoId demoSession
      [("id", .int 1), ("login", .str ("b"))]) = some [("id", some (.int 1))] ∧
    demoParamsNoId.pk = [("id", none)] := by
  exact ⟨by decide, by decide⟩

/-- C9 amended: create, update_id and delete return with the Parameters
object exactly as it was (and list/get/count never touch it); `update`
alone overwrites the Parameters' identity values with the corresponding
input-dictionary fields (`from_input_dict`), leaving its other fields
unchanged. -/
theorem C9_params_preserved_except_update :
    ∀ (settings : CrudSettings) (params : CrudParams) (ssn : Session) (d : Attrs)
      (res : OpResult),
      (MutateApi.create settings params ssn d = .ok res → res.params = params) ∧
      (MutateApi.update_id settings params ssn d = .ok res → res.params = params) ∧
      (MutateApi.delete settings params ssn = .ok res → res.params = params) ∧
      (MutateApi.update settings params ssn d = .ok res →
        res.params = params.from_input_dict d) := by
  intro settings params ssn d res
  refine ⟨?_, ?_, ?_, ?_⟩
  · intro h
    obtain ⟨rfin, hc, hget, hres⟩ := create_ok_destruct settings params ssn d res h
    rw [hres]
  · intro h
    obtain ⟨r, rfin, hfind, hget, hres⟩ := update_id_ok_destruct settings params ssn d res h
    rw [hres]
  · intro h
    obtain ⟨r, hfind, hres⟩ := delete_ok_destruct settings params ssn res h
    rw [hres]
  · intro h
    obtain ⟨r, rfin, hfind, hget, hres⟩ :=
      update_id_ok_destruct settings (params.from_input_dict d) ssn d res h
    rw [hres]

/-- C9 witness: on the fixtures, update_id hands back the Parameters
unchanged, while update hands back the Parameters with the identity
resolved from the input. -/
theorem C9_witness :
    c9resU.params = demoParams ∧
    c9resUpd.params = demoParamsNoId.from_input_dict [("id", .int 1), ("login", .str ("b"))] :=
  ⟨(C9_params_preserved_except_update demoSettings demoParams demoSession
      [("login", .str ("b"))] c9resU).2.1 (by rfl),
   (C9_params_preserved_except_update demoSettings demoParamsNoId demoSession
      [("id", .int 1), ("login", .str ("b"))] c9resUpd).2.2.2 (by rfl)⟩

/-- C10: caller-supplied identity fields are applied verbatim and never
rejected — create persists the supplied identity value and returns it in
the PrimaryKeyResult, and update_id changes the entity's identity, the
returned PrimaryKeyResult reflecting the new caller-supplied value. -/
theorem C10_identity_fields_verbatim :
    ∀ (settings : CrudSettings) (params : CrudParams) (ssn : Session) (d : Attrs)
      (resC resU : OpResult) (r : Row) (k : String) (v : AttrValue),
      nodupKeys d = true →
      k ∈ settings.primary_key →
      lookupAttr k d = some v →
      v ≠ .null →
      (ssn.rows.all (fun row => row.oid != ssn.next_oid) = true →
        MutateApi.create settings params ssn d = .ok resC →
        (k, some v) ∈ resC.pk ∧
        (resC.ssn.getRow ssn.next_oid).map (fun row => lookupAttr k row.current)
          = some (some v)) ∧
      (nodupOids ssn.rows = true →
        ssn.rows.all (fun row => row.persisted.isSome) = true →
        findInstance params ssn = .ok r →
        MutateApi.update_id settings params ssn d = .ok resU →
        (k, some v) ∈ resU.pk ∧
        (resU.ssn.getRow r.oid).map (fun row => lookupAttr k row.current)
          = some (some v)) := by
  intro settings params ssn d resC resU r k v hnd hkmem hkv hv
  constructor
  · intro hfresh h
    obtain ⟨s0, hget, hpk, hparams⟩ := create_ok_state settings params ssn d resC hfresh h
    have hlook : lookupAttr k (assignPkFields settings.primary_key d s0).1 = some v :=
      lookupAttr_assignPkFields settings.primary_key d s0 k v hkv hv
    constructor
    · rw [hpk, getPrimaryKeyDict_persisted settings _ _ rfl]
      exact List.mem_map.mpr ⟨k, hkmem, by rw [hlook]⟩
    · rw [hget]
      simp only [Option.map]
      rw [hlook]
  · intro hwf hpersist hfind h
    obtain ⟨hssn, hget, hpk, hparams⟩ :=
      update_id_ok_state settings params ssn d resU r hwf hpersist hfind h
    have hlook : lookupAttr k (updateInstanceFromInputDict r.current d) = some v :=
      lookupAttr_applyInputDict_mem r.current d k v hnd hkv
    constructor
    · rw [hpk, getPrimaryKeyDict_persisted settings _ _ rfl]
      exact List.mem_map.mpr ⟨k, hkmem, by rw [hlook]⟩
    · rw [hget]
      simp only [Option.map]
      rw [hlook]

/-- C10 witness: creating with `id = 999` returns `{id: 999}`, and
update_id with `id = 999` against the row addressed as `id = 1` returns
`{id: 999}`. -/
theorem C10_witness :
    (("id", some (AttrValue.int 999)) ∈ c10resC.pk) ∧
    (("id", some (AttrValue.int 999)) ∈ c10resU.pk) :=
  ⟨(C10_identity_fields_verbatim demoSettings demoParams demoSession
      [("id", .int 999), ("is_admin", .bool false)] c10resC c10resU demoRow ("id")
      (.int 999) (by decide) (by decide) (by decide) (by decide)).1 (by decide) (by rfl) |>.1,
   (C10_identity_fields_verbatim demoSettings demoParams demoSession
      [("id", .int 999)] c10resC c10resU demoRow ("id")
      (.int 999) (by decide) (by decide) (by decide) (by decide)).2 (by decide) (by decide)
      (by rfl) (by rfl) |>.1⟩

theorem nodupOids_map_oid_preserving (rows : List Row) (g : Row → Row)
    (hg : ∀ row, (g row).oid = row.oid) :
    nodupOids (rows.map g) = nodupOids rows := by
  induction rows with
  | nil => rfl
  | cons r1 rest ih =>
    simp only [List.map_cons, nodupOids, ih]
    have hany : (rest.map g).any (fun r2 => r2.oid == (g r1).oid)
        = rest.any (fun r2 => r2.oid == r1.oid) := by
      rw [List.any_map]
      have hfun : ((fun r2 => r2.oid == (g r1).oid) ∘ g) = (fun r2 => r2.oid == r1.oid) :=
        funext fun row => by simp [Function.comp, hg]
      rw [hfun]
    rw [hany]

theorem all_persisted_map_updRow (rows : List Row) (o : Nat) (a : Attrs) :
    (rows.map (updRow o a)).all (fun row => row.persisted.isSome) = true := by
  rw [List.all_eq_true]
  intro x hx
  obtain ⟨row0, hm, rfl⟩ := List.mem_map.mp hx
  unfold updRow persistRow
  split <;> rfl

theorem updRow_idem (o : Nat) (a : Attrs) (row : Row) :
    updRow o a (updRow o a row) = updRow o a row := by
  unfold updRow persistRow
  rcases h : row.oid == o with _ | _ <;> simp [h]

theorem from_input_dict_idem (p : CrudParams) (d : Attrs) :
    (p.from_input_dict d).from_input_dict d = p.from_input_dict d := rfl

/-- C7: create_or_update performs a create exactly when the input key set
does not cover all declared identity fields; otherwise it takes the
update path (resolving identity into the Parameters, then update_id), and
calling it twice with the same full-identity input and unchanged other
fields is idempotent: the second call returns the same primary-key
payload and leaves the session and Parameters in the same state. -/
theorem C7_create_or_update_dispatch_idempotence :
    ∀ (settings : CrudSettings) (params : CrudParams) (ssn : Session) (d : Attrs),
      (pkProvidedB settings d = true ↔ ∀ k ∈ settings.primary_key, k ∈ keysOf d) ∧
      (pkProvidedB settings d = false →
        MutateApi.create_or_update settings params ssn d
          = MutateApi.create settings params ssn d) ∧
      (pkProvidedB settings d = true →
        MutateApi.create_or_update settings params ssn d
          = MutateApi.update_id settings (params.from_input_dict d) ssn d) ∧
      (∀ res1 res2 : OpResult,
        nodupOids ssn.rows = true →
        ssn.rows.all (fun row => row.persisted.isSome) = true →
        nodupKeys d = true →
        pkProvidedB settings d = true →
        MutateApi.create_or_update settings params ssn d = .ok res1 →
        MutateApi.create_or_update settings res1.params res1.ssn d = .ok res2 →
        res2.pk = res1.pk ∧ res2.ssn = res1.ssn ∧ res2.params = res1.params) := by
  intro settings params ssn d
  have hdisp : ∀ (p : CrudParams) (s : Session), pkProvidedB settings d = true →
      MutateApi.create_or_update settings p s d
        = MutateApi.update_id settings (p.from_input_dict d) s d := by
    intro p s hpk
    unfold MutateApi.create_or_update MutateApi.update
    rw [hpk]
    simp
  refine ⟨?_, ?_, fun hpk => hdisp params ssn hpk, ?_⟩
  · simp only [pkProvidedB, keysOf, List.all_eq_true, List.any_eq_true]
    constructor
    · intro h k hk
      obtain ⟨kv, hkv, hbeq⟩ := h k hk
      exact List.mem_map.mpr ⟨kv, hkv, by simpa using hbeq⟩
    · intro h k hk
      obtain ⟨kv, hkv, hfst⟩ := List.mem_map.mp (h k hk)
      exact ⟨kv, hkv, by simp [hfst]⟩
  · intro hpk
    unfold MutateApi.create_or_update
    rw [hpk]
    simp
  · intro res1 res2 hwf hpersist hnd hpk h1 h2
    rw [hdisp params ssn hpk] at h1
    obtain ⟨r, rfin1, hfind1, hget1, hres1eq⟩ :=
      update_id_ok_destruct settings (params.from_input_dict d) ssn d res1 h1
    obtain ⟨hssn1, hgetrow1, hpk1, hparams1⟩ :=
      update_id_ok_state settings (params.from_input_dict d) ssn d res1 r hwf hpersist hfind1 h1
    rw [hdisp res1.params res1.ssn hpk] at h2
    rw [hparams1, from_input_dict_idem] at h2
    obtain ⟨r2, rfin2, hfind2, hget2, hres2eq⟩ :=
      update_id_ok_destruct settings (params.from_input_dict d) res1.ssn d res2 h2
    have hwf2 : nodupOids res1.ssn.rows = true := by
      rw [hssn1]
      show nodupOids (ssn.rows.map (updRow r.oid (updateInstanceFromInputDict r.current d)))
        = true
      rw [nodupOids_map_oid_preserving _ _ (fun row => updRow_oid _ _ row)]
      exact hwf
    have hpersist2 : res1.ssn.rows.all (fun row => row.persisted.isSome) = true := by
      rw [hssn1]
      exact all_persisted_map_updRow _ _ _
    have hmatches2 := (findInstance_eq_ok_iff _ _ _).mp hfind2
    have hr2mem : r2 ∈ res1.ssn.rows.filter
        (fun row => rowMatches (params.from_input_dict d).filter_one row.current) := by
      rw [hmatches2]
      simp
    have hr2mem2 := List.mem_filter.mp hr2mem
    have hfilter1 := (findInstance_eq_ok_iff _ _ _).mp hfind1
    have hG : r2 = updRow r.oid (updateInstanceFromInputDict r.current d) r := by
      have hmem : r2 ∈ ssn.rows.map (updRow r.oid (updateInstanceFromInputDict r.current d)) := by
        have h6 := hr2mem2.1
        rw [hssn1] at h6
        exact h6
      obtain ⟨row0, hrow0, hg0⟩ := List.mem_map.mp hmem
      rcases hcase : row0.oid == r.oid with _ | _
      · exfalso
        have hcur : (updRow r.oid (updateInstanceFromInputDict r.current d) row0).current
            = row0.current := by
          unfold updRow persistRow
          rw [if_neg (by simp [hcase])]
        have hmatch0 : rowMatches (params.from_input_dict d).filter_one row0.current = true := by
          have h5 := hr2mem2.2
          rw [← hg0] at h5
          simpa [hcur] using h5
        have hrow0r : row0 = r := by
          have hmemf : row0 ∈ ssn.rows.filter
              (fun row => rowMatches (params.from_input_dict d).filter_one row.current) :=
            List.mem_filter.mpr ⟨hrow0, hmatch0⟩
          rw [hfilter1] at hmemf
          simpa using hmemf
        rw [hrow0r] at hcase
        simp at hcase
      · have hoid : row0.oid = r.oid := by simpa using hcase
        have hrow0r : row0 = r := eq_of_mem_nodupOids ssn.rows r row0 hwf
          (findInstance_ok_mem _ _ _ hfind1) hrow0 hoid
        rw [← hg0, hrow0r]
    obtain ⟨hssn2, hgetrow2, hpk2, hparams2⟩ :=
      update_id_ok_state settings (params.from_input_dict d) res1.ssn d res2 r2 hwf2 hpersist2
        hfind2 h2
    have hr2oid : r2.oid = r.oid := by rw [hG, updRow_oid]
    have hr2cur : r2.current = updateInstanceFromInputDict r.current d := by
      rw [hG]
      unfold updRow
      rw [if_pos (by simp)]
    have hA2 : updateInstanceFromInputDict r2.current d
        = updateInstanceFromInputDict r.current d := by
      rw [hr2cur]
      exact applyInputDict_idem r.current d hnd
    refine ⟨?_, ?_, ?_⟩
    · rw [hpk2, hpk1, hA2, hr2oid]
    · have hrows12 : res1.ssn.rows.map (updRow r2.oid (updateInstanceFromInputDict r2.current d))
          = res1.ssn.rows := by
        rw [hA2, hr2oid, hssn1]
        show (ssn.rows.map (updRow r.oid (updateInstanceFromInputDict r.current d))).map
            (updRow r.oid (updateInstanceFromInputDict r.current d))
          = ssn.rows.map (updRow r.oid (updateInstanceFromInputDict r.current d))
        rw [List.map_map]
        exact List.map_congr_left (fun row _ => updRow_idem _ _ row)
      rw [hssn2, hrows12]
    · rw [hparams2, hparams1]

/-- C7 witness: on the fixtures, the full-identity input dispatches to the
update path, and calling create_or_update twice with it yields the same
primary-key payload and the same final session. -/
theorem C7_witness :
    (pkProvidedB demoSettings c7d = true ∧
      MutateApi.create_or_update demoSettings demoParams demoSession c7d
        = MutateApi.update_id demoSettings (demoParams.from_input_dict c7d) demoSession c7d) ∧
    (c7res2.pk = c7res1.pk ∧ c7res2.ssn = c7res1.ssn ∧ c7res2.params = c7res1.params) :=
  ⟨⟨by decide,
    (C7_create_or_update_dispatch_idempotence demoSettings demoParams demoSession c7d).2.2.1
      (by decide)⟩,
   (C7_create_or_update_dispatch_idempotence demoSettings demoParams demoSession c7d).2.2.2
     c7res1 c7res2 (by decide) (by decide) (by decide) (by decide) (by rfl) (by rfl)⟩
